import Mathlib

/-!
Shallow embedding of the UDP flow management of outline-go-tun2socks
(`tunnel/intra/udp.go` and the `SetDNS` surface of `tunnel/intra.go`).

Conventions of the embedding:
* `core.UDPConn` handles (the virtual-interface side) are `Nat` identifiers.
* Real sockets (`*net.UDPConn`) are `Nat` identifiers chosen by the
  environment (`net.ListenUDP` either fails or returns a fresh socket).
* Time is a `Nat` counting nanoseconds, as in Go's monotonic clock.
* Byte slices are `List Nat`; a byte is reduced `% 256` at the point where
  Go reads it as a `byte`.
* Side effects (socket writes, closes, the DoH dispatch, the delivered
  summaries) are recorded as an explicit event trace.
* The duration computed by `Close` is `int32(time.Since(t.start).Seconds())`
  in Go: float64 division by 1e9 followed by truncation, which agrees with
  integer division by 1e9 for every duration small enough for `float64`
  (and `int32`) to be exact; it is embedded as `Nat` division by 1e9.
-/

namespace Tun2Socks

/-- A UDP address, `net.UDPAddr`: the source only ever compares `IP`
(via `IP.Equal`) and `Port`, so the IP is kept opaque as a `Nat`. -/
structure UDPAddr where
  ip : Nat
  port : Nat
deriving DecidableEq, Repr

/-- Struct `UDPSocketSummary`: upload/download byte totals (`int64` in Go) and the
duration of the socket in whole seconds. -/
structure UDPSocketSummary where
  uploadBytes : Int
  downloadBytes : Int
  duration : Nat
deriving DecidableEq, Repr

/-- The per-flow `tracker` struct of `udp.go`. -/
structure Tracker where
  connSock : Nat
  start : Nat
  upload : Int
  download : Int
  complex : Bool
  queryid : Nat
deriving DecidableEq, Repr

/-- Function `makeTracker(conn)`: zero counters, `complex = false`, `queryid = 0`,
`start = time.Now()`. -/
def makeTracker (sock : Nat) (now : Nat) : Tracker :=
  ⟨sock, now, 0, 0, false, 0⟩

/-- The `udpHandler` struct. The `DNSTransport` is opaque: only its
presence (`h.dns != nil`) matters to the control flow, so it is an
`Option Nat`. -/
structure UdpHandler where
  timeout : Nat
  udpConns : List (Nat × Tracker)
  fakedns : UDPAddr
  truedns : UDPAddr
  dns : Option Nat
deriving DecidableEq, Repr

/-- Lookup in the Go map `h.udpConns`. -/
def lookupConn : List (Nat × Tracker) → Nat → Option Tracker
  | [], _ => none
  | (k, t) :: rest, c => if k = c then some t else lookupConn rest c

/-- Go map assignment `h.udpConns[conn] = t` (insert or overwrite). -/
def setConn : List (Nat × Tracker) → Nat → Tracker → List (Nat × Tracker)
  | [], c, t => [(c, t)]
  | (k, t0) :: rest, c, t =>
    if k = c then (c, t) :: rest else (k, t0) :: setConn rest c t

/-- Go map deletion `delete(h.udpConns, conn)`. -/
def delConn : List (Nat × Tracker) → Nat → List (Nat × Tracker)
  | [], _ => []
  | (k, t0) :: rest, c =>
    if k = c then delConn rest c else (k, t0) :: delConn rest c

/-- Conversion `uint16(i)` of a Go `int32`: the low sixteen bits,
i.e. the value modulo 2^16 in two's complement. -/
def uint16ofInt (i : Int) : Nat :=
  (i % 65536).toNat

/-- Function `queryid(data)`: `-1` when the packet is shorter than two bytes,
otherwise `0xFFFF & (int32(data[0])<<8 | int32(data[1]))`. -/
def queryid (data : List Nat) : Int :=
  if data.length < 2 then -1
  else
    Int.ofNat (0xFFFF &&& (((data.headD 0 % 256) <<< 8) ||| (data.tail.headD 0 % 256)))

/-- Observable effects of the handler, in program order. -/
inductive Event where
  | bindUDP (ip : Option Nat) (port : Nat)
  | setDeadline (deadline : Nat)
  | writeReal (sock : Nat) (data : List Nat) (dst : UDPAddr)
  | writeTUN (conn : Nat) (data : List Nat) (src : UDPAddr)
  | dohDispatch (conn : Nat) (data : List Nat)
  | closeReal (sock : Nat)
  | closeTUN (conn : Nat)
  | summary (s : UDPSocketSummary)
deriving DecidableEq, Repr

/-- The errors the embedded operations can return. -/
inductive GoError where
  | notFound
  | writeFailed
  | bindFailed
deriving DecidableEq, Repr

/-- The address/tracker adjustment performed by `ReceiveTo` before the
unconditional upload accounting and real-socket write: returns the
updated tracker, the (possibly rewritten) destination address, and
whether the datagram was dispatched to the DoH transport. -/
def receiveRoute (h : UdpHandler) (t : Tracker) (data : List Nat) (addr : UDPAddr) :
    Tracker × UDPAddr × Bool :=
  if addr = h.fakedns then
    if h.dns.isSome then (t, addr, true)
    else if queryid data < 0 then ({ t with complex := true }, h.truedns, false)
    else if t.upload = 0 then
      ({ t with queryid := uint16ofInt (queryid data) }, h.truedns, false)
    else if t.queryid ≠ uint16ofInt (queryid data) then
      ({ t with complex := true }, h.truedns, false)
    else (t, h.truedns, false)
  else ({ t with complex := true }, addr, false)

/-- Method `udpHandler.ReceiveTo`. The environment decides with `writeOk` whether
the `WriteTo` on the real socket succeeds. -/
def receiveTo (h : UdpHandler) (conn : Nat) (data : List Nat) (addr : UDPAddr)
    (writeOk : Bool) : UdpHandler × List Event × Except GoError Unit :=
  match lookupConn h.udpConns conn with
  | none => (h, [], Except.error GoError.notFound)
  | some t =>
    let r := receiveRoute h t data addr
    let t2 := { r.1 with upload := r.1.upload + (data.length : Int) }
    ({ h with udpConns := setConn h.udpConns conn t2 },
     (if r.2.2 then [Event.dohDispatch conn data] else []) ++
       [Event.writeReal t2.connSock data r.2.1],
     if writeOk then Except.ok () else Except.error GoError.writeFailed)

/-- Method `udpHandler.doDoh`: query the transport; on success write the response
toward the virtual interface with the fake-DNS address as source, on
failure do nothing. The transport's answer is environment-chosen. -/
def doDoh (h : UdpHandler) (conn : Nat) (resp : Option (List Nat)) : List Event :=
  match resp with
  | some r => [Event.writeTUN conn r h.fakedns]
  | none => []

/-- The source-address rewrite and `complex` classification performed on one
datagram received by `fetchUDPInput` (after a successful `ReadFrom` of
`data` from `addr`). -/
def fetchRewrite (h : UdpHandler) (t : Tracker) (data : List Nat) (addr : UDPAddr) :
    Tracker × UDPAddr :=
  if addr = h.truedns then
    if data.length < 2 then ({ t with complex := true }, h.fakedns)
    else if t.queryid ≠ uint16ofInt (queryid data) then
      ({ t with complex := true }, h.fakedns)
    else (t, h.fakedns)
  else ({ t with complex := true }, addr)

/-- One iteration body of `fetchUDPInput`'s loop after a successful read:
classify, count the bytes, write toward the virtual interface; the final
`Bool` is whether the loop continues (the write succeeded and the flow is
`complex`). -/
def fetchStep (h : UdpHandler) (conn : Nat) (t : Tracker) (data : List Nat)
    (addr : UDPAddr) (writeOk : Bool) : Tracker × List Event × Bool :=
  let r := fetchRewrite h t data addr
  let t2 := { r.1 with download := r.1.download + (data.length : Int) }
  (t2, [Event.writeTUN conn data r.2], writeOk && t2.complex)

/-- One read attempt of the loop, as resolved by the environment: either
`ReadFrom` failed (timeout, closed socket, ...) or it returned `data`
from `addr`, with `writeOk` telling whether the subsequent `WriteFrom`
succeeds. -/
inductive ReadResult where
  | err
  | ok (data : List Nat) (addr : UDPAddr) (writeOk : Bool)
deriving DecidableEq, Repr

/-- The loop of `fetchUDPInput`, run over a finite prefix of read attempts,
each tagged with the time `now` at which its iteration starts. Every
iteration first sets the real-socket deadline to `now + h.timeout`. -/
def fetchLoop (h : UdpHandler) (conn : Nat) :
    Tracker → List (Nat × ReadResult) → Tracker × List Event
  | t, [] => (t, [])
  | t, (now, ReadResult.err) :: _ => (t, [Event.setDeadline (now + h.timeout)])
  | t, (now, ReadResult.ok data addr writeOk) :: rest =>
    let s := fetchStep h conn t data addr writeOk
    if s.2.2 then
      ((fetchLoop h conn s.1 rest).1,
       Event.setDeadline (now + h.timeout) :: (s.2.1 ++ (fetchLoop h conn s.1 rest).2))
    else (s.1, Event.setDeadline (now + h.timeout) :: s.2.1)

/-- Method `udpHandler.Connect`. The target address only appears in a log line in
the source; `bindResult` is the environment's answer to
`net.ListenUDP({IP: nil, Port: 0})`: `none` on failure, the fresh real
socket on success. -/
def connect (h : UdpHandler) (conn : Nat) (target : UDPAddr) (now : Nat)
    (bindResult : Option Nat) : UdpHandler × List Event × Except GoError Unit :=
  match bindResult with
  | none => (h, [Event.bindUDP none 0], Except.error GoError.bindFailed)
  | some sock =>
    ({ h with udpConns := setConn h.udpConns conn (makeTracker sock now) },
     [Event.bindUDP none 0], Except.ok ())

/-- Method `udpHandler.Close`: always close the virtual-interface side; if a
tracker exists, close the real socket, deliver the summary with the
duration in whole seconds, and remove the entry. -/
def close (h : UdpHandler) (conn : Nat) (now : Nat) : UdpHandler × List Event :=
  match lookupConn h.udpConns conn with
  | none => (h, [Event.closeTUN conn])
  | some t =>
    ({ h with udpConns := delConn h.udpConns conn },
     [Event.closeTUN conn, Event.closeReal t.connSock,
      Event.summary ⟨t.upload, t.download, (now - t.start) / 1000000000⟩])

/-- Value of `time.ParseDuration("2h4m")` from `registerConnectionHandlers`, in
nanoseconds. -/
def parsedTimeout : Nat := (2 * 60 * 60 + 4 * 60) * 1000000000

/-- Constructor `NewUDPHandler`: empty flow table, the given addresses, transport and
timeout. -/
def newUDPHandler (fakedns truedns : UDPAddr) (dns : Option Nat) (timeout : Nat) :
    UdpHandler :=
  { timeout := timeout, udpConns := [], fakedns := fakedns, truedns := truedns,
    dns := dns }

/-- The UDP handler as constructed by `registerConnectionHandlers`, with the
parsed `"2h4m"` timeout. -/
def registerUDPHandler (fakedns truedns : UDPAddr) (dns : Option Nat) : UdpHandler :=
  newUDPHandler fakedns truedns dns parsedTimeout

/-- One atomic operation of a flow's history, as seen by the handler. -/
inductive Op where
  | connect (conn : Nat) (target : UDPAddr) (now : Nat) (bindResult : Option Nat)
  | receiveTo (conn : Nat) (data : List Nat) (addr : UDPAddr) (writeOk : Bool)
  | readStep (conn : Nat) (data : List Nat) (addr : UDPAddr) (now : Nat) (writeOk : Bool)
  | close (conn : Nat) (now : Nat)
deriving DecidableEq, Repr

/-- Effect of one operation on the handler state, with the events it emits.
A `readStep` is one successful-read iteration of the flow's
`fetchUDPInput` task, acting on the flow's tracker. -/
def step (h : UdpHandler) : Op → UdpHandler × List Event
  | Op.connect conn target now bindResult =>
    let r := connect h conn target now bindResult
    (r.1, r.2.1)
  | Op.receiveTo conn data addr w =>
    let r := receiveTo h conn data addr w
    (r.1, r.2.1)
  | Op.readStep conn data addr now w =>
    match lookupConn h.udpConns conn with
    | none => (h, [])
    | some t =>
      let r := fetchStep h conn t data addr w
      ({ h with udpConns := setConn h.udpConns conn r.1 },
       Event.setDeadline (now + h.timeout) :: r.2.1)
  | Op.close conn now => close h conn now

/-- Run a sequence of operations, concatenating the event traces. -/
def run (h : UdpHandler) : List Op → UdpHandler × List Event
  | [] => (h, [])
  | op :: rest =>
    let r := step h op
    ((run r.1 rest).1, r.2 ++ (run r.1 rest).2)

/-- The summaries delivered to the listener within an event trace. -/
def summariesOf : List Event → List UDPSocketSummary
  | [] => []
  | Event.summary s :: rest => s :: summariesOf rest
  | _ :: rest => summariesOf rest

/-- Number of real-socket closes in a trace. -/
def closeRealCount : List Event → Nat
  | [] => 0
  | Event.closeReal _ :: rest => closeRealCount rest + 1
  | _ :: rest => closeRealCount rest

/-- Number of virtual-interface-side closes in a trace. -/
def closeTUNCount : List Event → Nat
  | [] => 0
  | Event.closeTUN _ :: rest => closeTUNCount rest + 1
  | _ :: rest => closeTUNCount rest

/-- An operation of the middle of a flow's history on handle `conn`:
a `ReceiveTo` or a read-task receive step on that handle. -/
def isMidOp (conn : Nat) : Op → Bool
  | Op.receiveTo c _ _ _ => c = conn
  | Op.readStep c _ _ _ _ => c = conn
  | _ => false

/-- Total payload length handed to `ReceiveTo` on `conn` within a
sequence of operations. -/
def uploadSum (conn : Nat) : List Op → Int
  | [] => 0
  | Op.receiveTo c data _ _ :: rest =>
    (if c = conn then (data.length : Int) else 0) + uploadSum conn rest
  | _ :: rest => uploadSum conn rest

/-- Total byte count received by the read task of `conn` within a sequence
of operations. -/
def downloadSum (conn : Nat) : List Op → Int
  | [] => 0
  | Op.readStep c data _ _ _ :: rest =>
    (if c = conn then (data.length : Int) else 0) + downloadSum conn rest
  | _ :: rest => downloadSum conn rest

/-- The `intratunnel` state relevant to `SetDNS` in `tunnel/intra.go`.
Transports are opaque (`Option Nat`, `none` = nil). The fields `udpDns`
and `tcpDns` stand for the transports held by the two flow managers;
their `SetDNS` methods are not under `src/`. Modelled from the spec:
each flow manager's `SetDNS` records the given transport. -/
structure GoIntraTunnel where
  dns : Option Nat
  udpDns : Option Nat
  tcpDns : Option Nat
deriving DecidableEq, Repr

/-- Method `intratunnel.SetDNS`: `t.dns = dns; t.udp.SetDNS(dns); t.tcp.SetDNS(dns)`
with no nil check. -/
def setDNS (t : GoIntraTunnel) (dns : Option Nat) : GoIntraTunnel :=
  { t with dns := dns, udpDns := dns, tcpDns := dns }

/-! Helper lemmas about the flow-table operations. -/

theorem lookup_set_self (m : List (Nat × Tracker)) (c : Nat) (t : Tracker) :
    lookupConn (setConn m c t) c = some t := by
  induction m with
  | nil => simp [setConn, lookupConn]
  | cons p rest ih =>
    obtain ⟨k, t0⟩ := p
    by_cases hk : k = c <;> simp [setConn, lookupConn, hk, ih]

theorem lookup_del_self (m : List (Nat × Tracker)) (c : Nat) :
    lookupConn (delConn m c) c = none := by
  induction m with
  | nil => simp [delConn, lookupConn]
  | cons p rest ih =>
    obtain ⟨k, t0⟩ := p
    by_cases hk : k = c <;> simp [delConn, lookupConn, hk, ih]

/-- Lemma: `receiveRoute` only ever touches the `complex` and `queryid` fields of
the tracker. -/
theorem receiveRoute_shape (h : UdpHandler) (t : Tracker) (data : List Nat)
    (addr : UDPAddr) :
    ∃ c q, (receiveRoute h t data addr).1 = { t with complex := c, queryid := q } := by
  unfold receiveRoute
  split_ifs <;> exact ⟨_, _, rfl⟩

/-- Lemma: `receiveRoute` never clears the `complex` flag. -/
theorem receiveRoute_complex_mono (h : UdpHandler) (t : Tracker) (data : List Nat)
    (addr : UDPAddr) (hc : t.complex = true) :
    ((receiveRoute h t data addr).1).complex = true := by
  unfold receiveRoute
  split_ifs <;> first | rfl | exact hc

/-- Lemma: `fetchRewrite` only ever touches the `complex` field of the tracker. -/
theorem fetchRewrite_shape (h : UdpHandler) (t : Tracker) (data : List Nat)
    (addr : UDPAddr) :
    ∃ c, (fetchRewrite h t data addr).1 = { t with complex := c } := by
  unfold fetchRewrite
  split_ifs <;> exact ⟨_, rfl⟩

/-- Lemma: `fetchRewrite` never clears the `complex` flag. -/
theorem fetchRewrite_complex_mono (h : UdpHandler) (t : Tracker) (data : List Nat)
    (addr : UDPAddr) (hc : t.complex = true) :
    ((fetchRewrite h t data addr).1).complex = true := by
  unfold fetchRewrite
  split_ifs <;> first | rfl | exact hc

/-- A concrete handler with a DoH transport configured and one tracked flow
(handle 0, real socket 7, tracker fresh at time 0). -/
def dohHandler : UdpHandler :=
  { timeout := parsedTimeout, udpConns := [(0, makeTracker 7 0)],
    fakedns := ⟨10, 53⟩, truedns := ⟨11, 5353⟩, dns := some 0 }

/-- A variant of `dohHandler` whose tracked flow is already complex. -/
def dohHandlerComplex : UdpHandler :=
  { dohHandler with udpConns := [(0, { makeTracker 7 0 with complex := true })] }

/-- C1: with a DoH transport configured, `ReceiveTo` destined to the
fake-DNS address dispatches the query to the transport but then falls
through: it still increments the tracker's upload counter by the payload
length and still writes the raw query to the real upstream socket
(destined to the fake-DNS address). The claim (and the handler's own
documentation) requires this path to leave the upload counter and the
real socket untouched. -/
theorem receiveTo_doh_still_touches_socket :
    (receiveTo dohHandler 0 [1, 2, 3] ⟨10, 53⟩ true).2.1 =
      [Event.dohDispatch 0 [1, 2, 3], Event.writeReal 7 [1, 2, 3] ⟨10, 53⟩] ∧
    lookupConn (receiveTo dohHandler 0 [1, 2, 3] ⟨10, 53⟩ true).1.udpConns 0 =
      some { makeTracker 7 0 with upload := 3 } := by
  decide

/-- C2 counterexample: `SetDNS` given an absent transport does not leave the
current binding unchanged — it overwrites the binding (and both flow
managers) with the absent value. -/
theorem setDNS_absent_not_rejected :
    setDNS ⟨some 1, some 1, some 1⟩ none ≠ ⟨some 1, some 1, some 1⟩ := by
  decide

/-- C2 (amended): `SetDNS` performs no rejection at all: for every
transport argument, present or absent, it records it as the current
binding and propagates it to both flow managers. -/
theorem setDNS_records_and_propagates (t : GoIntraTunnel) (d : Option Nat) :
    (setDNS t d).dns = d ∧ (setDNS t d).udpDns = d ∧ (setDNS t d).tcpDns = d :=
  ⟨rfl, rfl, rfl⟩

/-- C5: a flow whose tracker is not complex, receiving a datagram of length
at least 2 from the true-DNS address whose query id matches the recorded
one, forwards it with the source rewritten to the fake-DNS address and
stops its read loop (no further receive). -/
theorem dns_oneshot_stops (h : UdpHandler) (conn : Nat) (t : Tracker)
    (data : List Nat) (hc : t.complex = false) (hn : 2 ≤ data.length)
    (hq : t.queryid = uint16ofInt (queryid data)) :
    fetchStep h conn t data h.truedns true =
      ({ t with download := t.download + (data.length : Int) },
       [Event.writeTUN conn data h.fakedns], false) := by
  have h2 : ¬ data.length < 2 := by omega
  simp [fetchStep, fetchRewrite, h2, hq, hc]

/-- C5 witness: a concrete non-complex tracker receiving the matching
response. -/
theorem dns_oneshot_stops_witness :
    ({ makeTracker 7 0 with queryid := 5 } : Tracker).complex = false ∧
    2 ≤ ([0, 5, 9] : List Nat).length ∧
    ({ makeTracker 7 0 with queryid := 5 } : Tracker).queryid =
      uint16ofInt (queryid [0, 5, 9]) ∧
    fetchStep dohHandler 0 { makeTracker 7 0 with queryid := 5 } [0, 5, 9]
        dohHandler.truedns true =
      ({ makeTracker 7 0 with
         queryid := 5,
         download := (0 : Int) + (([0, 5, 9] : List Nat).length : Int) },
       [Event.writeTUN 0 [0, 5, 9] dohHandler.fakedns], false) :=
  ⟨by decide, by decide, by decide,
   dns_oneshot_stops dohHandler 0 { makeTracker 7 0 with queryid := 5 }
     [0, 5, 9] (by decide) (by decide) (by decide)⟩

/-- C6: once a tracker's complex flag is true, neither a read-task receive
step nor a `ReceiveTo` ever makes it false again. -/
theorem complex_never_reverts (h : UdpHandler) (conn : Nat) (t : Tracker)
    (data data' : List Nat) (addr addr' : UDPAddr) (w w' : Bool)
    (hc : t.complex = true) :
    ((fetchStep h conn t data addr w).1).complex = true ∧
    (lookupConn h.udpConns conn = some t →
      ∀ t2, lookupConn (receiveTo h conn data' addr' w').1.udpConns conn = some t2 →
        t2.complex = true) := by
  constructor
  · simpa [fetchStep] using fetchRewrite_complex_mono h t data addr hc
  · intro hl t2 hlook
    unfold receiveTo at hlook
    rw [hl] at hlook
    simp only [lookup_set_self] at hlook
    cases hlook
    simpa using receiveRoute_complex_mono h t data' addr' hc

/-- C6 witness: a concrete complex tracker stays complex under both
operations. -/
theorem complex_never_reverts_witness :
    ({ makeTracker 7 0 with complex := true } : Tracker).complex = true ∧
    (((fetchStep dohHandlerComplex 0 { makeTracker 7 0 with complex := true } [4]
          ⟨3, 3⟩ true).1).complex = true ∧
      (lookupConn dohHandlerComplex.udpConns 0 =
          some { makeTracker 7 0 with complex := true } →
        ∀ t2, lookupConn
            (receiveTo dohHandlerComplex 0 [9] ⟨3, 3⟩ true).1.udpConns 0 = some t2 →
          t2.complex = true)) :=
  ⟨by decide,
   (complex_never_reverts dohHandlerComplex 0
      { makeTracker 7 0 with complex := true } [4] [9] ⟨3, 3⟩ ⟨3, 3⟩ true true
      (by decide))⟩

/-- C7: `ReceiveTo` on a handle with no tracker returns the lookup error
and has no side effects: the handler state is unchanged and no event is
emitted. -/
theorem receiveTo_unknown_flow (h : UdpHandler) (conn : Nat) (data : List Nat)
    (addr : UDPAddr) (w : Bool) (hnone : lookupConn h.udpConns conn = none) :
    receiveTo h conn data addr w = (h, [], Except.error GoError.notFound) := by
  unfold receiveTo
  rw [hnone]

/-- C7 witness: a freshly constructed handler has no tracker for handle 0. -/
theorem receiveTo_unknown_flow_witness :
    lookupConn (newUDPHandler ⟨1, 53⟩ ⟨2, 5353⟩ none parsedTimeout).udpConns 0 =
      none ∧
    receiveTo (newUDPHandler ⟨1, 53⟩ ⟨2, 5353⟩ none parsedTimeout) 0 [8, 8] ⟨9, 9⟩
        true =
      (newUDPHandler ⟨1, 53⟩ ⟨2, 5353⟩ none parsedTimeout, [],
       Except.error GoError.notFound) :=
  ⟨rfl,
   receiveTo_unknown_flow (newUDPHandler ⟨1, 53⟩ ⟨2, 5353⟩ none parsedTimeout) 0
     [8, 8] ⟨9, 9⟩ true rfl⟩

/-- C8: the handler built by `registerConnectionHandlers` carries an idle
timeout of exactly 2 hours 4 minutes, and every iteration of the read
loop begins by setting the real-socket deadline to that iteration's own
start time plus the timeout: the timeout is per read, not per flow
lifetime. -/
theorem idle_timeout_per_read (f tr : UDPAddr) (d : Option Nat) (h : UdpHandler)
    (conn : Nat) (t : Tracker) (now : Nat) (r : ReadResult)
    (rest : List (Nat × ReadResult)) :
    (registerUDPHandler f tr d).timeout = (2 * 3600 + 4 * 60) * 1000000000 ∧
    ((fetchLoop h conn t ((now, r) :: rest)).2).head? =
      some (Event.setDeadline (now + h.timeout)) := by
  refine ⟨rfl, ?_⟩
  cases r with
  | err => rfl
  | ok data addr w =>
    simp only [fetchLoop]
    split <;> rfl

/-- C9: the byte counters record processed bytes, not delivered bytes: a
`ReceiveTo` whose real-socket write fails returns the write error but has
already incremented the upload counter by the payload length, and a read
iteration whose virtual-interface write fails stops the loop (tearing the
flow down) but has already incremented the download counter by the
received length. -/
theorem counters_count_processed_bytes (h : UdpHandler) (conn : Nat) (t : Tracker)
    (data data' : List Nat) (addr addr' : UDPAddr)
    (hl : lookupConn h.udpConns conn = some t) :
    ((receiveTo h conn data addr false).2.2 = Except.error GoError.writeFailed ∧
      ∃ t2, lookupConn (receiveTo h conn data addr false).1.udpConns conn = some t2 ∧
        t2.upload = t.upload + (data.length : Int)) ∧
    ((fetchStep h conn t data' addr' false).2.2 = false ∧
      ((fetchStep h conn t data' addr' false).1).download =
        t.download + (data'.length : Int)) := by
  obtain ⟨c, q, hshape⟩ := receiveRoute_shape h t data addr
  obtain ⟨c', hshape'⟩ := fetchRewrite_shape h t data' addr'
  refine ⟨⟨?_, ?_⟩, ?_, ?_⟩
  · simp [receiveTo, hl]
  · simp only [receiveTo, hl]
    exact ⟨_, lookup_set_self _ _ _, by simp [hshape]⟩
  · simp [fetchStep]
  · simp [fetchStep, hshape']

/-- C9 witness: a tracked flow whose writes fail still counts the bytes. -/
theorem counters_count_processed_bytes_witness :
    lookupConn dohHandler.udpConns 0 = some (makeTracker 7 0) ∧
    (((receiveTo dohHandler 0 [1, 2] ⟨3, 3⟩ false).2.2 =
        Except.error GoError.writeFailed ∧
      ∃ t2, lookupConn (receiveTo dohHandler 0 [1, 2] ⟨3, 3⟩ false).1.udpConns 0 =
          some t2 ∧
        t2.upload = (makeTracker 7 0).upload + (([1, 2] : List Nat).length : Int)) ∧
    ((fetchStep dohHandler 0 (makeTracker 7 0) [5, 5, 5] ⟨4, 4⟩ false).2.2 = false ∧
      ((fetchStep dohHandler 0 (makeTracker 7 0) [5, 5, 5] ⟨4, 4⟩ false).1).download =
        (makeTracker 7 0).download + (([5, 5, 5] : List Nat).length : Int))) :=
  ⟨by decide,
   counters_count_processed_bytes dohHandler 0 (makeTracker 7 0) [1, 2] [5, 5, 5]
     ⟨3, 3⟩ ⟨4, 4⟩ (by decide)⟩

/-- C10: `Connect` ignores its target address: for any two targets, the
resulting state, events (the same ephemeral nil-address bind) and result
coincide — the target is neither stored nor used. -/
theorem connect_ignores_target (h : UdpHandler) (conn : Nat)
    (target1 target2 : UDPAddr) (now : Nat) (bindResult : Option Nat) :
    connect h conn target1 now bindResult = connect h conn target2 now bindResult :=
  rfl

/-! Helper lemmas for the trace semantics. -/

theorem summariesOf_append (l1 l2 : List Event) :
    summariesOf (l1 ++ l2) = summariesOf l1 ++ summariesOf l2 := by
  induction l1 with
  | nil => simp [summariesOf]
  | cons e rest ih => cases e <;> simp [summariesOf, ih]

theorem closeRealCount_append (l1 l2 : List Event) :
    closeRealCount (l1 ++ l2) = closeRealCount l1 + closeRealCount l2 := by
  induction l1 with
  | nil => simp [closeRealCount]
  | cons e rest ih => cases e <;> simp [closeRealCount, ih] <;> omega

theorem closeTUNCount_append (l1 l2 : List Event) :
    closeTUNCount (l1 ++ l2) = closeTUNCount l1 + closeTUNCount l2 := by
  induction l1 with
  | nil => simp [closeTUNCount]
  | cons e rest ih => cases e <;> simp [closeTUNCount, ih] <;> omega

/-- Lemma: `Close` on a handle with a tracker: its exact state change and trace. -/
theorem close_some (h : UdpHandler) (conn : Nat) (now : Nat) (t : Tracker)
    (hl : lookupConn h.udpConns conn = some t) :
    close h conn now =
      ({ h with udpConns := delConn h.udpConns conn },
       [Event.closeTUN conn, Event.closeReal t.connSock,
        Event.summary ⟨t.upload, t.download, (now - t.start) / 1000000000⟩]) := by
  unfold close
  rw [hl]

/-- Lemma: `Close` on a handle without a tracker: only the virtual-interface-side
close happens. -/
theorem close_none (h : UdpHandler) (conn : Nat) (now : Nat)
    (hl : lookupConn h.udpConns conn = none) :
    close h conn now = (h, [Event.closeTUN conn]) := by
  unfold close
  rw [hl]

/-- Lemma: `ReceiveTo` on a tracked handle: its exact state change and trace. -/
theorem receiveTo_some (h : UdpHandler) (conn : Nat) (data : List Nat)
    (addr : UDPAddr) (w : Bool) (t : Tracker)
    (hl : lookupConn h.udpConns conn = some t) :
    receiveTo h conn data addr w =
      ({ h with
         udpConns := setConn h.udpConns conn
           ({ (receiveRoute h t data addr).1 with
              upload := (receiveRoute h t data addr).1.upload + (data.length : Int) }) },
       (if (receiveRoute h t data addr).2.2 then [Event.dohDispatch conn data]
        else []) ++
         [Event.writeReal ((receiveRoute h t data addr).1).connSock data
           (receiveRoute h t data addr).2.1],
       if w then Except.ok () else Except.error GoError.writeFailed) := by
  unfold receiveTo
  rw [hl]

theorem uploadSum_cons (conn : Nat) (op : Op) (rest : List Op) :
    uploadSum conn (op :: rest) = uploadSum conn [op] + uploadSum conn rest := by
  cases op <;> simp [uploadSum]

theorem downloadSum_cons (conn : Nat) (op : Op) (rest : List Op) :
    downloadSum conn (op :: rest) = downloadSum conn [op] + downloadSum conn rest := by
  cases op <;> simp [downloadSum]

/-- One `ReceiveTo` or read-task step on a tracked handle keeps the handle
tracked, adds exactly its bytes to the right counter, leaves `start` and
the real socket unchanged, and delivers no summary. -/
theorem mid_step_tracker (h : UdpHandler) (conn : Nat) (t : Tracker) (op : Op)
    (hop : isMidOp conn op = true) (hl : lookupConn h.udpConns conn = some t) :
    ∃ t2, lookupConn (step h op).1.udpConns conn = some t2 ∧
      t2.upload = t.upload + uploadSum conn [op] ∧
      t2.download = t.download + downloadSum conn [op] ∧
      t2.start = t.start ∧ t2.connSock = t.connSock ∧
      summariesOf (step h op).2 = [] := by
  cases op with
  | connect c target now b => simp [isMidOp] at hop
  | close c now => simp [isMidOp] at hop
  | receiveTo c data addr w =>
    have hc : c = conn := by simpa [isMidOp] using hop
    subst hc
    obtain ⟨cb, qb, hshape⟩ := receiveRoute_shape h t data addr
    simp only [step, receiveTo_some h c data addr w t hl]
    refine ⟨_, lookup_set_self _ _ _, ?_, ?_, ?_, ?_, ?_⟩
    · simp [hshape, uploadSum]
    · simp [hshape, downloadSum]
    · simp [hshape]
    · simp [hshape]
    · split <;> simp [summariesOf]
  | readStep c data addr now w =>
    have hc : c = conn := by simpa [isMidOp] using hop
    subst hc
    obtain ⟨cb, hshape⟩ := fetchRewrite_shape h t data addr
    simp only [step, hl, fetchStep]
    refine ⟨_, lookup_set_self _ _ _, ?_, ?_, ?_, ?_, ?_⟩
    · simp [hshape, uploadSum]
    · simp [hshape, downloadSum]
    · simp [hshape]
    · simp [hshape]
    · simp [summariesOf]

/-- Running any number of `ReceiveTo`/read-task steps on a tracked handle
accumulates exactly their bytes into the tracker, preserves its start
time and socket, and delivers no summary. -/
theorem run_mid (conn : Nat) (mid : List Op) :
    ∀ (h : UdpHandler) (t : Tracker),
      (∀ op ∈ mid, isMidOp conn op = true) →
      lookupConn h.udpConns conn = some t →
      ∃ t2, lookupConn (run h mid).1.udpConns conn = some t2 ∧
        t2.upload = t.upload + uploadSum conn mid ∧
        t2.download = t.download + downloadSum conn mid ∧
        t2.start = t.start ∧ t2.connSock = t.connSock ∧
        summariesOf (run h mid).2 = [] := by
  induction mid with
  | nil =>
    intro h t _ hl
    exact ⟨t, by simpa [run] using hl, by simp [uploadSum], by simp [downloadSum],
      rfl, rfl, by simp [run, summariesOf]⟩
  | cons op rest ih =>
    intro h t hmid hl
    obtain ⟨t1, hl1, hu1, hd1, hs1, hc1, hsum1⟩ :=
      mid_step_tracker h conn t op (hmid op (by simp)) hl
    obtain ⟨t2, hl2, hu2, hd2, hs2, hc2, hsum2⟩ :=
      ih (step h op).1 t1 (fun o ho => hmid o (by simp [ho])) hl1
    refine ⟨t2, ?_, ?_, ?_, ?_, ?_, ?_⟩
    · simpa [run] using hl2
    · rw [hu2, hu1, uploadSum_cons conn op rest, add_assoc]
    · rw [hd2, hd1, downloadSum_cons conn op rest, add_assoc]
    · rw [hs2, hs1]
    · rw [hc2, hc1]
    · simp [run, summariesOf_append, hsum1, hsum2]

theorem run_append (l1 l2 : List Op) : ∀ h : UdpHandler,
    run h (l1 ++ l2) =
      ((run (run h l1).1 l2).1, (run h l1).2 ++ (run (run h l1).1 l2).2) := by
  induction l1 with
  | nil => intro h; simp [run]
  | cons op rest ih => intro h; simp [run, ih, List.append_assoc]

theorem run_single_close (h : UdpHandler) (conn : Nat) (now : Nat) :
    run h [Op.close conn now] = close h conn now := by
  simp [run, step]

/-- C3: a flow history of one successful Connect, any number of ReceiveTo
calls and read-task receive steps on that handle, and a final Close,
delivers exactly one summary to the listener: its upload field is the sum
of the ReceiveTo payload lengths, its download field the sum of the
read-task byte counts, and its duration the elapsed wall-clock time
truncated to whole seconds. -/
theorem flow_summary_totals (h0 : UdpHandler) (conn : Nat) (target : UDPAddr)
    (sock : Nat) (t0 t1 : Nat) (mid : List Op)
    (hmid : ∀ op ∈ mid, isMidOp conn op = true) :
    summariesOf (run h0 (Op.connect conn target t0 (some sock) ::
        (mid ++ [Op.close conn t1]))).2 =
      [⟨uploadSum conn mid, downloadSum conn mid, (t1 - t0) / 1000000000⟩] := by
  have hl : lookupConn (step h0 (Op.connect conn target t0 (some sock))).1.udpConns
      conn = some (makeTracker sock t0) := by
    simp only [step, connect]
    exact lookup_set_self _ _ _
  obtain ⟨t2, hl2, hu, hd, hs, hc, hsum⟩ :=
    run_mid conn mid (step h0 (Op.connect conn target t0 (some sock))).1
      (makeTracker sock t0) hmid hl
  have hrun : (run h0 (Op.connect conn target t0 (some sock) ::
      (mid ++ [Op.close conn t1]))).2 =
      (step h0 (Op.connect conn target t0 (some sock))).2 ++
        (run (step h0 (Op.connect conn target t0 (some sock))).1
          (mid ++ [Op.close conn t1])).2 := by
    simp [run]
  have hstep : (step h0 (Op.connect conn target t0 (some sock))).2 =
      [Event.bindUDP none 0] := by
    simp [step, connect]
  rw [hrun, run_append mid [Op.close conn t1] _, summariesOf_append,
    summariesOf_append, hstep, hsum, run_single_close, close_some _ conn t1 t2 hl2]
  simp [summariesOf, hu, hd, hs, makeTracker]

/-- C3 witness: the middle operations of the concrete history below. -/
def witnessMid : List Op :=
  [Op.receiveTo 0 [9, 9] ⟨3, 4⟩ true, Op.readStep 0 [8, 8, 8] ⟨3, 4⟩ 5 true]

/-- C3 witness: a concrete Connect / ReceiveTo / read-step / Close history
on handle 0. -/
theorem flow_summary_totals_witness :
    (∀ op ∈ witnessMid, isMidOp 0 op = true) ∧
    summariesOf (run (newUDPHandler ⟨1, 53⟩ ⟨2, 5353⟩ none parsedTimeout)
        (Op.connect 0 ⟨6, 7⟩ 0 (some 3) ::
          (witnessMid ++ [Op.close 0 2500000000]))).2 =
      [⟨uploadSum 0 witnessMid, downloadSum 0 witnessMid,
        (2500000000 - 0) / 1000000000⟩] :=
  ⟨by decide,
   flow_summary_totals (newUDPHandler ⟨1, 53⟩ ⟨2, 5353⟩ none parsedTimeout) 0
     ⟨6, 7⟩ 3 0 2500000000 witnessMid (by decide)⟩

/-- C4: Close is idempotent: on a handle with a tracker, closing twice
delivers exactly one summary and closes the real socket exactly once,
with the virtual-interface-side close primitive invoked by every call;
Close on a handle with no tracker performs only the
virtual-interface-side close and delivers no summary. -/
theorem close_idempotent (h : UdpHandler) (conn : Nat) (now1 now2 : Nat) :
    (∀ t, lookupConn h.udpConns conn = some t →
      (summariesOf ((close h conn now1).2 ++
        (close (close h conn now1).1 conn now2).2)).length = 1 ∧
      closeRealCount ((close h conn now1).2 ++
        (close (close h conn now1).1 conn now2).2) = 1 ∧
      closeTUNCount ((close h conn now1).2 ++
        (close (close h conn now1).1 conn now2).2) = 2) ∧
    (lookupConn h.udpConns conn = none →
      close h conn now1 = (h, [Event.closeTUN conn])) := by
  constructor
  · intro t hl
    have h1 := close_some h conn now1 t hl
    have h2 : lookupConn (close h conn now1).1.udpConns conn = none := by
      rw [h1]
      exact lookup_del_self _ _
    have h3 := close_none (close h conn now1).1 conn now2 h2
    rw [h3, h1]
    simp [summariesOf, closeRealCount, closeTUNCount, summariesOf_append,
      closeRealCount_append, closeTUNCount_append]
  · exact close_none h conn now1

/-- C4 witness: the double close on a handler with a tracked flow, and a
single close on a handler with no tracker. -/
theorem close_idempotent_witness :
    (lookupConn dohHandler.udpConns 0 = some (makeTracker 7 0) ∧
      ((summariesOf ((close dohHandler 0 3).2 ++
          (close (close dohHandler 0 3).1 0 9).2)).length = 1 ∧
        closeRealCount ((close dohHandler 0 3).2 ++
          (close (close dohHandler 0 3).1 0 9).2) = 1 ∧
        closeTUNCount ((close dohHandler 0 3).2 ++
          (close (close dohHandler 0 3).1 0 9).2) = 2)) ∧
    (lookupConn (newUDPHandler ⟨1, 53⟩ ⟨2, 5353⟩ none parsedTimeout).udpConns 0 =
        none ∧
      close (newUDPHandler ⟨1, 53⟩ ⟨2, 5353⟩ none parsedTimeout) 0 5 =
        (newUDPHandler ⟨1, 53⟩ ⟨2, 5353⟩ none parsedTimeout, [Event.closeTUN 0])) :=
  ⟨⟨by decide, (close_idempotent dohHandler 0 3 9).1 (makeTracker 7 0) (by decide)⟩,
   ⟨rfl, (close_idempotent (newUDPHandler ⟨1, 53⟩ ⟨2, 5353⟩ none parsedTimeout)
      0 5 0).2 rfl⟩⟩

end Tun2Socks
